import Mathlib

/-!
Shallow embedding of src/GUI_test/simple_gui.py.

The script builds a tkinter window titled "Simple GLM GUI" holding two text
entries, two labels and one button, and wires the button (line 33) to the
click handler create_project (lines 6 to 9), which reads both entries and
calls utils.create_new_project with the two strings.

Modelling choices:
* Every side effect the handler may perform through the widget toolkit or the
  external library is recorded in a trace of Call values.  The alphabet holds
  the operations the toolkit offers on the widgets of this window: reading an
  entry (Entry.get), writing an entry (Entry.delete / Entry.insert), the
  external call utils.create_new_project, and the window or process
  terminating operations (root.quit, root.destroy, a process exit).  The
  handler of the source emits only a subset of these; which subset is exactly
  what the theorems below establish.
* Each delegated operation may raise, which we model with Except.  The Python
  handler has no try/except block, so a raise aborts the remaining statements
  and propagates unchanged; the embedding mirrors that statement by statement.
* The external create_new_project returns a value of an arbitrary type rho,
  which the source discards; the handler itself returns None, embedded Unit.
* The module body (lines 12 to 34) is embedded as the record GuiModule: window
  title, geometry string, the widgets in pack order, the initial entry texts
  (a tk.Entry starts empty) and the two module-level variables assigned on
  lines 29 and 30 from the still-empty entries.
-/

/-- One side effect performed through the widget toolkit or the external
library, as visible to simple_gui.py. -/
inductive Call : Type where
  | get_project_name_entry : Call
  | get_project_dir_entry : Call
  | set_project_name_entry (text : String) : Call
  | set_project_dir_entry (text : String) : Call
  | create_new_project (project_name : String) (project_dir : String) : Call
  | quit : Call
  | destroy : Call
  deriving DecidableEq, Repr

/-- Text currently held by the two entry widgets of the window. -/
structure GuiState : Type where
  project_name_entry : String
  project_dir_entry : String
  deriving DecidableEq, Repr

/-- The module-level variables project_name and project_dir assigned at load
time on lines 29 and 30 (none when the assignment has not happened). -/
structure ModuleVars : Type where
  project_name : Option String
  project_dir : Option String
  deriving DecidableEq, Repr

/-- The operations the click handler delegates to, each allowed to raise
(modelled with Except): the two Entry.get reads and the external
utils.create_new_project call, whose result type rho is opaque to the
script. -/
structure Env (eps rho : Type) : Type where
  project_name_entry_get : Except eps String
  project_dir_entry_get : Except eps String
  create_new_project : String → String → Except eps rho

set_option linter.unusedVariables false in
/-- Lines 6 to 9 of simple_gui.py, the click handler:

  def create_project():
      project_name = project_name_entry.get()
      project_dir = project_dir_entry.get()
      utils.create_new_project(project_name, project_dir)

Sequential execution with exception propagation: each delegated operation is
attempted in source order and the first raise aborts the rest, propagating
unchanged.  The result of the external call is discarded and the handler
returns None (Unit).  The module-level variables (gvars) are in scope in the
Python function body but shadowed by the fresh local assignments, so the
embedding takes them as an argument the body does not use.  Alongside the
result we return the trace of delegated calls, in order. -/
def create_project {eps rho : Type} (gvars : ModuleVars) (env : Env eps rho) :
    Except eps Unit × List Call :=
  match env.project_name_entry_get with
  | .error e => (.error e, [Call.get_project_name_entry])
  | .ok project_name =>
    match env.project_dir_entry_get with
    | .error e => (.error e, [Call.get_project_name_entry, Call.get_project_dir_entry])
    | .ok project_dir =>
      match env.create_new_project project_name project_dir with
      | .error e =>
        (.error e, [Call.get_project_name_entry, Call.get_project_dir_entry,
          Call.create_new_project project_name project_dir])
      | .ok _ =>
        (.ok (), [Call.get_project_name_entry, Call.get_project_dir_entry,
          Call.create_new_project project_name project_dir])

/-- The environment presented by a live window whose entries hold the texts
recorded in s: Entry.get returns the current text (it does not raise on a
live widget) and the external call behaves as ext. -/
def envOf {eps rho : Type} (s : GuiState) (ext : String → String → Except eps rho) :
    Env eps rho :=
  { project_name_entry_get := Except.ok s.project_name_entry
    project_dir_entry_get := Except.ok s.project_dir_entry
    create_new_project := ext }

/-- The argument pairs of the create_new_project invocations in a trace. -/
def createArgs (tr : List Call) : List (String × String) :=
  tr.filterMap fun c =>
    match c with
    | Call.create_new_project a b => some (a, b)
    | _ => none

/-- Effect of one toolkit operation on the entry texts: only the two write
operations change them. -/
def applyCall (s : GuiState) : Call → GuiState
  | Call.set_project_name_entry t => { s with project_name_entry := t }
  | Call.set_project_dir_entry t => { s with project_dir_entry := t }
  | _ => s

/-- Entry texts after a trace of operations has run on the window. -/
def runTrace (s : GuiState) (tr : List Call) : GuiState :=
  tr.foldl applyCall s

/-- Operations that close the window or end the process (root.quit,
root.destroy, a process exit). -/
def Call.terminatesUI : Call → Bool
  | Call.quit => true
  | Call.destroy => true
  | _ => false

/-- A widget packed into the window, tagged with the source variable that
holds it. -/
inductive Widget : Type where
  | entry (name : String) : Widget
  | label (name : String) (text : String) : Widget
  | button (name : String) (text : String) : Widget
  deriving DecidableEq, Repr

/-- Interactive controls are the entries and the buttons; labels are
static. -/
def Widget.interactive : Widget → Bool
  | Widget.entry _ => true
  | Widget.label _ _ => false
  | Widget.button _ _ => true

/-- State produced by running the module body, lines 12 to 34: window title
and geometry, the packed widgets in pack order, the entry texts, and the two
module-level variables of lines 29 and 30. -/
structure GuiModule : Type where
  title : String
  geometry : String
  packed : List Widget
  gui : GuiState
  project_name : Option String
  project_dir : Option String
  deriving DecidableEq, Repr

/-- The module body as given (lines 12 to 34): a tk.Entry starts with empty
text, and lines 29 and 30 read the still-empty entries into the module-level
variables project_name and project_dir before the window is shown. -/
def moduleInit : GuiModule :=
  { title := "Simple GLM GUI"
    geometry := "750x270"
    packed := [Widget.entry "project_name_entry",
      Widget.label "project_name_title" "Choose a project name",
      Widget.entry "project_dir_entry",
      Widget.label "project_dir_title" "Choose a project directory",
      Widget.button "create_project_button" "Create a project"]
    gui := { project_name_entry := "", project_dir_entry := "" }
    project_name := some ""
    project_dir := some "" }

/-- The module body with the dead lines 29 and 30 removed: the two
module-level variables are never assigned; everything else is unchanged. -/
def moduleInitStripped : GuiModule :=
  { title := "Simple GLM GUI"
    geometry := "750x270"
    packed := [Widget.entry "project_name_entry",
      Widget.label "project_name_title" "Choose a project name",
      Widget.entry "project_dir_entry",
      Widget.label "project_dir_title" "Choose a project directory",
      Widget.button "create_project_button" "Create a project"]
    gui := { project_name_entry := "", project_dir_entry := "" }
    project_name := none
    project_dir := none }

/-- Everything about the module state that later execution can observe
through the window: title, geometry, widgets and entry texts.  The handler
additionally sees the module variables, which create_project receives as its
gvars argument. -/
def GuiModule.observable (m : GuiModule) : String × String × List Widget × GuiState :=
  (m.title, m.geometry, m.packed, m.gui)

/-- The module-level variables as seen from inside the handler. -/
def GuiModule.vars (m : GuiModule) : ModuleVars :=
  { project_name := m.project_name, project_dir := m.project_dir }

/-- Line 33: the command wired to the button create_project_button is the
create_project handler. -/
def create_project_button_command {eps rho : Type} :
    ModuleVars → Env eps rho → Except eps Unit × List Call :=
  create_project

/-- Post-compose the external call of an environment with a function on its
success value; the two reads are untouched.  Used to state that the handler
discards whatever create_new_project returns. -/
def Env.mapRet {eps rho rho2 : Type} (f : rho → rho2) (env : Env eps rho) :
    Env eps rho2 :=
  { project_name_entry_get := env.project_name_entry_get
    project_dir_entry_get := env.project_dir_entry_get
    create_new_project := fun a b => (env.create_new_project a b).map f }

/-- On a live window the handler trace is always the two reads followed by the
creation call on the current entry texts, whether or not the external call
raises. -/
theorem create_project_envOf {eps rho : Type} (v : ModuleVars) (s : GuiState)
    (ext : String → String → Except eps rho) :
    (create_project v (envOf s ext)).2 =
      [Call.get_project_name_entry, Call.get_project_dir_entry,
        Call.create_new_project s.project_name_entry s.project_dir_entry] := by
  cases h : ext s.project_name_entry s.project_dir_entry <;>
    simp [create_project, envOf, h]

/-- Under any environment the handler trace has one of three shapes, cut off
at the first raising operation. -/
theorem create_project_trace_shape {eps rho : Type} (v : ModuleVars) (env : Env eps rho) :
    (create_project v env).2 = [Call.get_project_name_entry] ∨
    (create_project v env).2 =
      [Call.get_project_name_entry, Call.get_project_dir_entry] ∨
    ∃ a b, (create_project v env).2 =
      [Call.get_project_name_entry, Call.get_project_dir_entry,
        Call.create_new_project a b] := by
  rcases env with ⟨gn, gd, cr⟩
  cases gn with
  | error e => left; rfl
  | ok a =>
    cases gd with
    | error e => right; left; rfl
    | ok b =>
      cases h : cr a b with
      | error e => right; right; exact ⟨a, b, by simp [create_project, h]⟩
      | ok r => right; right; exact ⟨a, b, by simp [create_project, h]⟩

/-- C1: for all texts A and B currently held by the project-name and
project-directory entries, activating the Create a project button invokes the
external create_new_project exactly once, with positional arguments (A, B) in
that order, whatever the module-level variables hold and whatever the
external call then does. -/
theorem button_invokes_create_new_project_once {eps rho : Type} (v : ModuleVars)
    (s : GuiState) (ext : String → String → Except eps rho) :
    createArgs (create_project_button_command v (envOf s ext)).2 =
      [(s.project_name_entry, s.project_dir_entry)] := by
  show createArgs (create_project v (envOf s ext)).2 = _
  rw [create_project_envOf]
  rfl

/-- C2: with both fields holding the empty string, activating the button
still invokes the creation call, and it receives exactly the pair of two
empty strings: no validation or emptiness check short-circuits the call. -/
theorem empty_fields_still_invoke_create {eps rho : Type} (v : ModuleVars)
    (ext : String → String → Except eps rho) :
    createArgs (create_project v
      (envOf { project_name_entry := "", project_dir_entry := "" } ext)).2 =
      [("", "")] := by
  rw [create_project_envOf]
  rfl

/-- C3: the click handler raises exactly when one of the operations it
delegates to raises, and the failure propagates unchanged: the handler ends
with the error e precisely when the name read returned e, or the name read
succeeded and the directory read returned e, or both reads succeeded and the
external create_new_project call returned e.  The handler adds no handling,
logging or retry of its own. -/
theorem create_project_error_iff_delegate_error {eps rho : Type} (v : ModuleVars)
    (env : Env eps rho) (e : eps) :
    (create_project v env).1 = Except.error e ↔
      (env.project_name_entry_get = Except.error e ∨
       (∃ a, env.project_name_entry_get = Except.ok a ∧
         env.project_dir_entry_get = Except.error e) ∨
       (∃ a b, env.project_name_entry_get = Except.ok a ∧
         env.project_dir_entry_get = Except.ok b ∧
         env.create_new_project a b = Except.error e)) := by
  rcases env with ⟨gn, gd, cr⟩
  cases gn with
  | error e1 => simp [create_project]
  | ok a =>
    cases gd with
    | error e1 => simp [create_project]
    | ok b =>
      cases h : cr a b with
      | error e1 => simp [create_project, h]
      | ok r => simp [create_project, h]

/-- C4: activating the button never mutates the two entry widgets: running
the call trace of the handler on any window state leaves both entry texts
exactly as they were, both when every delegated operation succeeds and when
any of them raises.  The handler only reads the widgets. -/
theorem handler_never_mutates_entries {eps rho : Type} (v : ModuleVars)
    (env : Env eps rho) (s : GuiState) :
    runTrace s (create_project v env).2 = s := by
  rcases create_project_trace_shape v env with h | h | ⟨a, b, h⟩ <;> rw [h] <;> rfl

/-- C5: the module-level reads of the entries on lines 29 and 30 are dead
code: the module state built with them agrees with the module state built
without them on every observable (title, geometry, packed widgets, entry
texts), and the click handler behaves identically under the two resulting
sets of module-level variables, because its local variables of the same names
are assigned fresh on every activation. -/
theorem module_level_reads_are_dead_code {eps rho : Type} :
    moduleInit.observable = moduleInitStripped.observable ∧
    ∀ env : Env eps rho,
      create_project moduleInit.vars env = create_project moduleInitStripped.vars env :=
  ⟨rfl, fun _ => rfl⟩

/-- C6: the arguments forwarded to the creation call depend only on the
current texts of the two entries: two activations with identical field
contents, possibly under different module-level variables and different
external behaviours, invoke create_new_project with identical argument lists,
and those arguments are the field texts character for character, with no
normalization and no retained state. -/
theorem create_args_depend_only_on_fields {eps rho eps2 rho2 : Type}
    (v v2 : ModuleVars) (s s2 : GuiState)
    (ext : String → String → Except eps rho)
    (ext2 : String → String → Except eps2 rho2)
    (hname : s.project_name_entry = s2.project_name_entry)
    (hdir : s.project_dir_entry = s2.project_dir_entry) :
    createArgs (create_project v (envOf s ext)).2 =
        createArgs (create_project v2 (envOf s2 ext2)).2 ∧
    createArgs (create_project v (envOf s ext)).2 =
        [(s.project_name_entry, s.project_dir_entry)] := by
  have h1 : createArgs (create_project v (envOf s ext)).2 =
      [(s.project_name_entry, s.project_dir_entry)] := by
    rw [create_project_envOf]
    rfl
  have h2 : createArgs (create_project v2 (envOf s2 ext2)).2 =
      [(s2.project_name_entry, s2.project_dir_entry)] := by
    rw [create_project_envOf]
    rfl
  refine ⟨?_, h1⟩
  rw [h1, h2, hname, hdir]

/-- Witness for C6 at concrete inputs: the same field contents under
different module variables and different external behaviours give the same
creation arguments. -/
theorem create_args_depend_only_on_fields_witness :
    createArgs (create_project { project_name := some "", project_dir := some "" }
        (envOf { project_name_entry := "MyProject", project_dir_entry := "/tmp/projects" }
          (fun _ _ => (Except.ok () : Except Unit Unit)))).2 =
      createArgs (create_project { project_name := none, project_dir := none }
        (envOf { project_name_entry := "MyProject", project_dir_entry := "/tmp/projects" }
          (fun _ _ => (Except.error "no permission" : Except String Nat)))).2 :=
  (create_args_depend_only_on_fields _ _ _ _ _ _ rfl rfl).1

/-- C7: the handler consumes no return value: post-composing the external
call with any function on its success value changes neither the handler
result nor its trace, and on success the handler itself returns only the unit
value, surfacing nothing. -/
theorem handler_discards_return_value {eps rho rho2 : Type} (v : ModuleVars)
    (env : Env eps rho) (f : rho → rho2) :
    create_project v (env.mapRet f) = create_project v env ∧
    ((create_project v env).1 = Except.ok () ∨
      ∃ e, (create_project v env).1 = Except.error e) := by
  rcases env with ⟨gn, gd, cr⟩
  cases gn with
  | error e => exact ⟨rfl, Or.inr ⟨e, rfl⟩⟩
  | ok a =>
    cases gd with
    | error e => exact ⟨rfl, Or.inr ⟨e, rfl⟩⟩
    | ok b =>
      cases h : cr a b with
      | error e =>
        constructor
        · simp [create_project, Env.mapRet, Except.map, h]
        · exact Or.inr ⟨e, by simp [create_project, h]⟩
      | ok r =>
        constructor
        · simp [create_project, Env.mapRet, Except.map, h]
        · exact Or.inl (by simp [create_project, h])

/-- C8: the constructed window exposes exactly three interactive controls,
namely the two text entries and the button labeled Create a project, and the
click handler never emits a quit, destroy or other window-terminating
operation, so activating the button never closes the window or ends the
process, whatever the creation call does. -/
theorem three_controls_and_window_stays_open {eps rho : Type} :
    moduleInit.packed.filter Widget.interactive =
      [Widget.entry "project_name_entry", Widget.entry "project_dir_entry",
        Widget.button "create_project_button" "Create a project"] ∧
    (moduleInit.packed.filter Widget.interactive).length = 3 ∧
    ∀ (v : ModuleVars) (env : Env eps rho),
      (create_project v env).2.all (fun c => !c.terminatesUI) = true := by
  refine ⟨rfl, rfl, fun v env => ?_⟩
  rcases create_project_trace_shape v env with h | h | ⟨a, b, h⟩ <;> rw [h] <;> rfl

/-- C9: the external creation call happens only after both entry reads have
succeeded: if the project-name read raises, the trace is just that one read,
so the directory entry is not read and create_new_project is not invoked; if
the name read succeeds and the directory read raises, the trace is exactly
the two reads, so create_new_project is not invoked. -/
theorem no_create_after_failed_read {eps rho : Type} (v : ModuleVars)
    (env : Env eps rho) :
    (∀ e, env.project_name_entry_get = Except.error e →
      (create_project v env).2 = [Call.get_project_name_entry]) ∧
    (∀ a e, env.project_name_entry_get = Except.ok a →
      env.project_dir_entry_get = Except.error e →
      (create_project v env).2 =
        [Call.get_project_name_entry, Call.get_project_dir_entry]) := by
  constructor
  · intro e h
    simp [create_project, h]
  · intro a e h1 h2
    simp [create_project, h1, h2]

/-- Witness for C9: with a failing project-name read the trace stops at that
read, so neither the directory read nor the creation call appears. -/
theorem no_create_after_failed_read_witness :
    (create_project { project_name := none, project_dir := none }
      ({ project_name_entry_get := Except.error 7
         project_dir_entry_get := Except.ok ""
         create_new_project := fun _ _ => Except.ok () } : Env Nat Unit)).2 =
      [Call.get_project_name_entry] :=
  (no_create_after_failed_read _ _).1 7 rfl

/-- C10: in every activation on a live window each entry is read exactly
once, the project-name read comes strictly before the project-directory read,
and both come strictly before the external creation call: the trace is
exactly that three-element sequence, whatever the external call does. -/
theorem entries_read_once_in_order {eps rho : Type} (v : ModuleVars)
    (s : GuiState) (ext : String → String → Except eps rho) :
    (create_project v (envOf s ext)).2 =
      [Call.get_project_name_entry, Call.get_project_dir_entry,
        Call.create_new_project s.project_name_entry s.project_dir_entry] :=
  create_project_envOf v s ext

/-- Witness for C3: a failure of the external creation call, with both reads
succeeding, surfaces as exactly that error out of the handler. -/
theorem create_project_error_iff_delegate_error_witness :
    (create_project { project_name := none, project_dir := none }
      ({ project_name_entry_get := Except.ok "MyProject"
         project_dir_entry_get := Except.ok "/tmp/projects"
         create_new_project := fun _ _ => Except.error 3 } : Env Nat Unit)).1 =
      Except.error 3 :=
  (create_project_error_iff_delegate_error _ _ 3).mpr
    (Or.inr (Or.inr ⟨"MyProject", "/tmp/projects", rfl, rfl, rfl⟩))
